import Mathlib

/-!
Shallow embedding of the ServiceNow MCP server's protocol core
(src/main.py, src/servicenow_client.py).

JSON values exchanged over the wire are modelled by `Json` (numbers as
integers; the claims involve no floating point).  The per-message dispatch
of `websocket_endpoint` (main.py lines 201-298) is `handleFrame`: it maps
one inbound frame (either malformed text - a `json.JSONDecodeError` - or a
parsed JSON document) to the single outbound envelope the handler sends for
it, together with the list of backend table-API calls made while handling
it.  The ticketing backend (`_make_request` in servicenow_client.py) is an
external collaborator and is a parameter (`Backend`); the pure decoding
logic of `ServiceNowClient.get_incident` / `ServiceNowClient.create_incident`
around it is embedded from the source.  Python dicts are association lists;
duplicate keys follow `json.loads` (the last binding wins), and Python
dynamic-typing failures (calling `.get` on a non-dict, `in` on a non-iterable)
are embedded as the exceptions CPython raises, carried in `Except.error`
as `str(e)` is.  The connection registry (`ConnectionManager`) and the
teardown of the endpoint (main.py lines 300-303) are modelled at the end.
-/

/-- A JSON value as Python's `json.loads` produces it (numbers restricted to
integers; no claim involves floats). -/
inductive Json where
  | null
  | bool (b : Bool)
  | num (n : Int)
  | str (s : String)
  | arr (elems : List Json)
  | obj (fields : List (String × Json))

/-- Lookup in a Python dict built by `json.loads` from an association list of
bindings: with a duplicate key the last binding wins. -/
def dlookup (fs : List (String × Json)) (k : String) : Option Json :=
  (fs.reverse.find? (fun p => p.1 == k)).map (fun p => p.2)

/-- Python key-containment `k in d` for a dict. -/
def hasKey (fs : List (String × Json)) (k : String) : Bool :=
  fs.any (fun p => p.1 == k)

/-- Python truthiness (`bool(v)`) of a JSON value: `None`, `False`, `0`, the
empty string, the empty list and the empty dict are falsy. -/
def truthy : Json → Bool
  | Json.null => false
  | Json.bool b => b
  | Json.num n => n != 0
  | Json.str s => s != ""
  | Json.arr es => !es.isEmpty
  | Json.obj fs => !fs.isEmpty

/-- Python `v == s` for a string literal `s`: true exactly when `v` is the
equal string (no other JSON value compares equal to a `str`). -/
def jsonEqStr (v : Json) (s : String) : Bool :=
  match v with
  | Json.str t => t == s
  | _ => false

/-- The name CPython reports for the type of a value (`type(v).__name__`). -/
def pyTypeName : Json → String
  | Json.null => "NoneType"
  | Json.bool _ => "bool"
  | Json.num _ => "int"
  | Json.str _ => "str"
  | Json.arr _ => "list"
  | Json.obj _ => "dict"

/-- Message of the `AttributeError` CPython raises for `v.get(...)` on a
value with no `get` method. -/
def noAttrGet (v : Json) : String :=
  "'" ++ pyTypeName v ++ "' object has no attribute 'get'"

/-- The single-quote character, used by the CPython `repr` of strings. -/
def sqChar : Char := Char.ofNat 39

/-- The double-quote character. -/
def dqChar : Char := Char.ofNat 34

/-- Escaping inside a Python string repr: backslashes and the delimiter are
preceded by a backslash.  (Control-character escapes are not modelled; no
string reaching `repr` in the claims contains any.) -/
def escPy (delim : Char) (s : String) : String :=
  s.foldl
    (fun acc c =>
      acc ++
        (if c == Char.ofNat 92 || c == delim then
          String.singleton (Char.ofNat 92) ++ String.singleton c
        else String.singleton c))
    ""

/-- CPython `repr` of a string: single-quoted, or double-quoted when the
string contains a single quote and no double quote. -/
def reprStrPy (s : String) : String :=
  if s.contains sqChar && !s.contains dqChar then
    String.singleton dqChar ++ escPy dqChar s ++ String.singleton dqChar
  else
    String.singleton sqChar ++ escPy sqChar s ++ String.singleton sqChar

mutual

/-- CPython `repr` of a JSON value (what `str` falls back to for lists and
dicts inside an f-string). -/
def pyRepr : Json → String
  | Json.null => "None"
  | Json.bool true => "True"
  | Json.bool false => "False"
  | Json.num n => toString n
  | Json.str s => reprStrPy s
  | Json.arr es => "[" ++ pyReprElems es ++ "]"
  | Json.obj fs => "\x7b" ++ pyReprFields fs ++ "\x7d"

/-- Comma-separated list-element reprs. -/
def pyReprElems : List Json → String
  | [] => ""
  | [e] => pyRepr e
  | e :: rest => pyRepr e ++ ", " ++ pyReprElems rest

/-- Comma-separated dict-entry reprs. -/
def pyReprFields : List (String × Json) → String
  | [] => ""
  | [(k, v)] => reprStrPy k ++ ": " ++ pyRepr v
  | (k, v) :: rest => reprStrPy k ++ ": " ++ pyRepr v ++ ", " ++ pyReprFields rest

end

/-- CPython `str(v)` as an f-string renders it: `None`, `True`/`False`,
the digits of an int, a string itself, and `repr` for containers. -/
def pyStr (v : Json) : String :=
  match v with
  | Json.null => "None"
  | Json.bool true => "True"
  | Json.bool false => "False"
  | Json.num n => toString n
  | Json.str s => s
  | Json.arr es => pyRepr (Json.arr es)
  | Json.obj fs => pyRepr (Json.obj fs)

/-- Python `in` for a string key: dict key containment, list membership
(a list element equals a string only when it is that string), substring test
on a string, and a `TypeError` on anything else. -/
def pyIn (k : String) (v : Json) : Except String Bool :=
  match v with
  | Json.obj fs => Except.ok (hasKey fs k)
  | Json.arr es => Except.ok (es.any (fun e => jsonEqStr e k))
  | Json.str s => Except.ok (List.isPrefixOf k.toList s.toList || hasSubList k.toList s.toList)
  | w => Except.error ("argument of type '" ++ pyTypeName w ++ "' is not iterable")
where
  /-- substring test over char lists (`needle in haystack` for Python str). -/
  hasSubList (needle : List Char) : List Char → Bool
    | [] => needle.isEmpty
    | c :: t => List.isPrefixOf needle (c :: t) || hasSubList needle t

/-- One backend table-API call made by the client
(`_make_request` in servicenow_client.py): a GET on the incident table with
query parameters, or a POST with a record body. -/
inductive Call where
  | getT (params : List (String × Json))
  | createT (data : List (String × Json))

/-- The external ticketing backend, an opaque collaborator: each table-API
request either returns the decoded response JSON or raises
(`Except.error` carries `str(e)` of the raised exception). -/
structure Backend where
  getTable : List (String × Json) → Except String Json
  createTable : List (String × Json) → Except String Json

namespace ServiceNowClient

/-- Query parameters built by `get_incident` (servicenow_client.py lines
55-59): `number` when `incident_number` is truthy, `sys_id` when `sys_id`
is. -/
def queryParams (incident_number sys_id : Json) : List (String × Json) :=
  (if truthy incident_number then [("number", incident_number)] else []) ++
    (if truthy sys_id then [("sys_id", sys_id)] else [])

/-- Decoding of the GET response (servicenow_client.py lines 63-66):
`if response and 'result' in response and len(response['result']) > 0:
return response['result'][0]` else `return {}`.  The branches where the
response is not the documented dict-with-result-list shape embed the
exceptions CPython would raise at the corresponding subexpression. -/
def extractResult (response : Json) : Except String Json :=
  if truthy response = false then Except.ok (Json.obj [])
  else
    match response with
    | Json.obj fs =>
        match dlookup fs "result" with
        | none => Except.ok (Json.obj [])
        | some r =>
            match r with
            | Json.arr [] => Except.ok (Json.obj [])
            | Json.arr (x :: _) => Except.ok x
            | Json.str s =>
                if s.isEmpty then Except.ok (Json.obj [])
                else Except.ok (Json.str (String.singleton s.front))
            | Json.obj [] => Except.ok (Json.obj [])
            | Json.obj (_ :: _) => Except.error "0"
            | v => Except.error ("object of type '" ++ pyTypeName v ++ "' has no len()")
    | Json.arr es =>
        if es.any (fun e => jsonEqStr e "result") then
          Except.error "list indices must be integers or slices, not str"
        else Except.ok (Json.obj [])
    | Json.str s =>
        match pyIn "result" (Json.str s) with
        | Except.ok true => Except.error "string indices must be integers"
        | _ => Except.ok (Json.obj [])
    | v => Except.error ("argument of type '" ++ pyTypeName v ++ "' is not iterable")

/-- `ServiceNowClient.get_incident` (servicenow_client.py lines 47-66):
raises when both arguments are falsy, otherwise performs one GET with the
built query parameters and decodes the response. -/
def get_incident (b : Backend) (incident_number sys_id : Json) :
    Except String Json × List Call :=
  if !truthy incident_number && !truthy sys_id then
    (Except.error "Either incident_number or sys_id must be provided to get an incident.", [])
  else
    ((match b.getTable (queryParams incident_number sys_id) with
      | Except.error e => Except.error e
      | Except.ok response => extractResult response),
     [Call.getT (queryParams incident_number sys_id)])

/-- Overwrite-or-append of one key, as Python `d[k] = v` behaves on a dict
(an existing key keeps its position, a new key is appended). -/
def dictSet (d : List (String × Json)) (k : String) (v : Json) : List (String × Json) :=
  if d.any (fun p => p.1 == k) then
    d.map (fun p => if p.1 == k then (k, v) else p)
  else d ++ [(k, v)]

/-- Python `d.update(kw)`: `dictSet` for each binding of `kw` in order. -/
def dictUpdate (d kw : List (String × Json)) : List (String × Json) :=
  kw.foldl (fun acc p => dictSet acc p.1 p.2) d

/-- The record body `create_incident` builds (servicenow_client.py lines
74-82): the two required fields, then `description` only when truthy, then
`incident_data.update(kwargs)`. -/
def incidentData (short_description caller_id description : Json)
    (kwargs : List (String × Json)) : List (String × Json) :=
  dictUpdate
    ([("short_description", short_description), ("caller_id", caller_id)] ++
      (if truthy description then [("description", description)] else []))
    kwargs

/-- `ServiceNowClient.create_incident` (servicenow_client.py lines 68-85):
one POST with the built record body, then `response.get('result', {})`
(an `AttributeError` when the response is not a dict). -/
def create_incident (b : Backend) (short_description caller_id description : Json)
    (kwargs : List (String × Json)) : Except String Json × List Call :=
  ((match b.createTable (incidentData short_description caller_id description kwargs) with
    | Except.error e => Except.error e
    | Except.ok response =>
        match response with
        | Json.obj fs => Except.ok ((dlookup fs "result").getD (Json.obj []))
        | v => Except.error (noAttrGet v)),
   [Call.createT (incidentData short_description caller_id description kwargs)])

end ServiceNowClient

/-- `tool_params.get(k)` for a dict of params: the value, `None` when the
key is absent. -/
def pget (ps : List (String × Json)) (k : String) : Json :=
  (dlookup ps k).getD Json.null

/-- The `get_incident_details` arm of the dispatcher (main.py lines
237-245): `tool_params.get` raises on a non-dict; both identifiers falsy
raises the ValueError of line 239; otherwise the client call. -/
def execGetIncident (b : Backend) : Json → Except String Json × List Call
  | Json.obj ps =>
      if !truthy (pget ps "incident_number") && !truthy (pget ps "sys_id") then
        (Except.error "Either 'incident_number' or 'sys_id' must be provided for get_incident_details.", [])
      else
        ServiceNowClient.get_incident b (pget ps "incident_number") (pget ps "sys_id")
  | v => (Except.error (noAttrGet v), [])

/-- Message of the ValueError of main.py line 250
(`', '.join(["short_description", "caller_id"])`). -/
def missingCreateMsg : String :=
  "Missing required parameters for create_incident: short_description, caller_id"

/-- The `create_incident` arm of the dispatcher (main.py lines 247-259):
`all(p in tool_params for p in required_params)` with Python's
short-circuiting `in` (which may itself raise on a non-iterable), the
ValueError of line 250 when a required key is missing, then the client call
with the five named parameters read by `tool_params.get` (any further keys
of `params` are not read). -/
def execCreateIncident (b : Backend) (tp : Json) : Except String Json × List Call :=
  match pyIn "short_description" tp with
  | Except.error e => (Except.error e, [])
  | Except.ok has1 =>
    if has1 = false then (Except.error missingCreateMsg, [])
    else
      match pyIn "caller_id" tp with
      | Except.error e => (Except.error e, [])
      | Except.ok has2 =>
        if has2 = false then (Except.error missingCreateMsg, [])
        else
          match tp with
          | Json.obj ps =>
              ServiceNowClient.create_incident b (pget ps "short_description")
                (pget ps "caller_id") (pget ps "description")
                [("impact", pget ps "impact"), ("urgency", pget ps "urgency")]
          | v => (Except.error (noAttrGet v), [])

/-- The result of the `try` block of main.py lines 236-268: `error_message`
(in `Except.error`) or `tool_result_payload`.  A caught exception is
wrapped as `Error executing tool '<tool_name>': <str(e)>` (line 267); the
unknown-tool message of line 263 is assigned directly, not raised, so it is
not wrapped. -/
def wrapCall (name : String) :
    Except String Json × List Call → Except String Json × List Call
  | (Except.error e, cs) =>
      (Except.error ("Error executing tool '" ++ name ++ "': " ++ e), cs)
  | r => r

/-- Tool resolution of the `execute` branch (main.py lines 237-268). -/
def executeOutcome (b : Backend) (tool_name tool_params : Json) :
    Except String Json × List Call :=
  if jsonEqStr tool_name "get_incident_details" then
    wrapCall "get_incident_details" (execGetIncident b tool_params)
  else if jsonEqStr tool_name "create_incident" then
    wrapCall "create_incident" (execCreateIncident b tool_params)
  else
    (Except.error ("Unknown tool: '" ++ pyStr tool_name ++ "'"), [])

/-- The error envelope as every error reply inside the message loop builds
it (`{"id": message_id, "type": "error", "error": msg}`). -/
def errEnv (mid : Json) (msg : String) : Json :=
  Json.obj [("id", mid), ("type", Json.str "error"), ("error", Json.str msg)]

/-- Response assembly of main.py lines 270-283: an `error` envelope when
`error_message` is set, otherwise a `tool_result` envelope carrying the
tool name and payload. -/
def mkResponse (mid tool_name : Json) :
    Except String Json × List Call → Json × List Call
  | (Except.error e, cs) => (errEnv mid e, cs)
  | (Except.ok payload, cs) =>
      (Json.obj [("id", mid), ("type", Json.str "tool_result"),
        ("tool_name", tool_name), ("result", payload)], cs)

/-- The `execute` branch (main.py lines 228-286): read `tool_name` and
`params` (defaulting to `\x7b\x7d`), resolve and run the tool, assemble the
reply. -/
def handleExecute (b : Backend) (mid : Json) (fs : List (String × Json)) :
    Json × List Call :=
  mkResponse mid ((dlookup fs "tool_name").getD Json.null)
    (executeOutcome b ((dlookup fs "tool_name").getD Json.null)
      ((dlookup fs "params").getD (Json.obj [])))

/-- `mcp_message.get("type")` (main.py line 208). -/
def msgType (fs : List (String × Json)) : Json :=
  (dlookup fs "type").getD Json.null

/-- `mcp_message.get("id", str(uuid.uuid4()))` (main.py line 209): the
inbound `id`, or the freshly generated identifier when absent. -/
def msgId (fresh : String) (fs : List (String × Json)) : Json :=
  (dlookup fs "id").getD (Json.str fresh)

/-- Dispatch of one successfully parsed JSON document (main.py lines
207-291): the missing-`type` error, the `heartbeat` echo, the `execute`
branch, the unhandled-type error; a document that is not a JSON object
makes `mcp_message.get("type")` raise `AttributeError`, which the handler
of line 296 turns into an `Internal server error:` envelope without an
`id`. -/
def handleParsed (b : Backend) (fresh : String) : Json → Json × List Call
  | Json.obj fs =>
      if truthy (msgType fs) = false then
        (errEnv (msgId fresh fs) "Message type missing.", [])
      else if jsonEqStr (msgType fs) "heartbeat" then
        (Json.obj [("id", msgId fresh fs), ("type", Json.str "heartbeat_ack"),
          ("timestamp", (dlookup fs "timestamp").getD Json.null)], [])
      else if jsonEqStr (msgType fs) "execute" then
        handleExecute b (msgId fresh fs) fs
      else
        (errEnv (msgId fresh fs) ("Unhandled message type: " ++ pyStr (msgType fs)), [])
  | v =>
      (Json.obj [("type", Json.str "error"),
        ("error", Json.str ("Internal server error: " ++ noAttrGet v))], [])

/-- One inbound frame of the receive loop: raw text that `json.loads`
rejects (`malformed`), or the parsed document. -/
inductive Frame where
  | malformed
  | parsed (j : Json)

/-- One iteration of the receive loop (main.py lines 202-298): the reply
envelope sent for the frame, and the backend calls made while producing it.
A `json.JSONDecodeError` is answered by the id-less generic error envelope
of line 295. -/
def handleFrame (b : Backend) (fresh : String) : Frame → Json × List Call
  | Frame.malformed =>
      (Json.obj [("type", Json.str "error"),
        ("error", Json.str "Invalid JSON received.")], [])
  | Frame.parsed j => handleParsed b fresh j

/-- The `id` field of an outbound envelope, when it has one. -/
def envId : Json → Option Json
  | Json.obj fs => dlookup fs "id"
  | _ => none

namespace ConnectionManager

/-- `ConnectionManager.disconnect` (main.py lines 25-29): delete the
session's entry when present; the transport handles are opaque (`Nat`). -/
def disconnect (conns : List (String × Nat)) (sid : String) : List (String × Nat) :=
  if conns.any (fun p => p.1 == sid) then conns.filter (fun p => p.1 != sid)
  else conns

end ConnectionManager

/-- How the receive loop of one session ends (main.py lines 300-303): the
transport disconnect signal (`WebSocketDisconnect`), or any other
unrecoverable exception. -/
inductive SessionEnd where
  | wsDisconnect
  | otherError (msg : String)

/-- The registry after the endpoint's teardown (main.py lines 300-303):
`WebSocketDisconnect` runs `manager.disconnect(session_id)`; any other
exception is only logged and the registry is left untouched. -/
def sessionTeardown (conns : List (String × Nat)) (sid : String) :
    SessionEnd → List (String × Nat)
  | SessionEnd.wsDisconnect => ConnectionManager.disconnect conns sid
  | SessionEnd.otherError _ => conns

/-- A backend whose incident table is empty: every GET finds nothing, every
POST reports one fixed created record. -/
def emptyGetBackend : Backend :=
  ⟨fun _ => Except.ok (Json.obj [("result", Json.arr [])]),
   fun _ => Except.ok (Json.obj [("result", Json.obj [("number", Json.str "INC0010055")])])⟩

/-- A backend holding one incident `INC0010007`, returned for every GET. -/
def oneIncidentBackend : Backend :=
  ⟨fun _ =>
      Except.ok (Json.obj [("result",
        Json.arr [Json.obj [("number", Json.str "INC0010007"),
          ("short_description", Json.str "Login failure")]])]),
   fun _ => Except.ok (Json.obj [("result", Json.obj [("number", Json.str "INC0010056")])])⟩

/-! Helper lemmas shared by several claims. -/

theorem msgType_eq (fs : List (String × Json)) (v : Json)
    (h : dlookup fs "type" = some v) : msgType fs = v := by
  rw [msgType, h, Option.getD]

theorem handleParsed_execute (b : Backend) (fresh : String)
    (fs : List (String × Json)) (hty : dlookup fs "type" = some (Json.str "execute")) :
    handleParsed b fresh (Json.obj fs) = handleExecute b (msgId fresh fs) fs := by
  have hmt : msgType fs = Json.str "execute" := msgType_eq fs _ hty
  have e1 : truthy (Json.str "execute") = true := rfl
  have e2 : jsonEqStr (Json.str "execute") "heartbeat" = false := rfl
  have e3 : jsonEqStr (Json.str "execute") "execute" = true := rfl
  simp [handleParsed, hmt, e1, e2, e3]

theorem envId_handleExecute (b : Backend) (mid : Json) (fs : List (String × Json)) :
    envId (handleExecute b mid fs).1 = some mid := by
  rw [handleExecute]
  rcases h : executeOutcome b ((dlookup fs "tool_name").getD Json.null)
      ((dlookup fs "params").getD (Json.obj [])) with ⟨ex, cs⟩
  cases ex <;> rfl

theorem mkResponse_snd (mid tn : Json) (r : Except String Json × List Call) :
    (mkResponse mid tn r).2 = r.2 := by
  rcases r with ⟨ex, cs⟩; cases ex <;> rfl

theorem wrapCall_snd (n : String) (r : Except String Json × List Call) :
    (wrapCall n r).2 = r.2 := by
  rcases r with ⟨ex, cs⟩; cases ex <;> rfl

theorem handleExecute_get (b : Backend) (mid : Json) (fs : List (String × Json))
    (htool : dlookup fs "tool_name" = some (Json.str "get_incident_details")) :
    handleExecute b mid fs =
      mkResponse mid (Json.str "get_incident_details")
        (wrapCall "get_incident_details"
          (execGetIncident b ((dlookup fs "params").getD (Json.obj [])))) := by
  rw [handleExecute, htool]
  simp [Option.getD, executeOutcome, jsonEqStr]

theorem handleExecute_create (b : Backend) (mid : Json) (fs : List (String × Json))
    (htool : dlookup fs "tool_name" = some (Json.str "create_incident")) :
    handleExecute b mid fs =
      mkResponse mid (Json.str "create_incident")
        (wrapCall "create_incident"
          (execCreateIncident b ((dlookup fs "params").getD (Json.obj [])))) := by
  rw [handleExecute, htool]
  simp [Option.getD, executeOutcome, jsonEqStr]

theorem incidentData_eq (sd ci desc vi vu : Json) :
    ServiceNowClient.incidentData sd ci desc [("impact", vi), ("urgency", vu)] =
      [("short_description", sd), ("caller_id", ci)] ++
        (if truthy desc then [("description", desc)] else []) ++
        [("impact", vi), ("urgency", vu)] := by
  cases htr : truthy desc <;>
    simp [ServiceNowClient.incidentData, ServiceNowClient.dictUpdate,
      ServiceNowClient.dictSet, htr]

theorem any_filter_ne (conns : List (String × Nat)) (sid : String) :
    (conns.filter (fun p => p.1 != sid)).any (fun p => p.1 == sid) = false := by
  simp [List.mem_filter]

/-! Claim C1 (corrected). -/

/-- C1 counterexample: an `execute` of `create_incident` whose `params`
carry both required fields plus the additional key `category` leads to a
backend create call whose record contains no `category` key at all: the
additional key is dropped, not forwarded verbatim as the claim states. -/
theorem create_extra_param_key_not_forwarded :
    (handleFrame emptyGetBackend "fresh-7" (Frame.parsed (Json.obj
      [("id", Json.str "m6c"), ("type", Json.str "execute"),
       ("tool_name", Json.str "create_incident"),
       ("params", Json.obj [("short_description", Json.str "x"), ("caller_id", Json.str "y"),
         ("category", Json.str "network")])]))).2 =
      [Call.createT [("short_description", Json.str "x"), ("caller_id", Json.str "y"),
        ("impact", Json.null), ("urgency", Json.null)]] ∧
    dlookup [("short_description", Json.str "x"), ("caller_id", Json.str "y"),
        ("impact", Json.null), ("urgency", Json.null)] "category" = none :=
  ⟨rfl, rfl⟩

/-- C1 (amended): for every `execute` of `create_incident` whose `params`
contain `short_description` and `caller_id`, exactly one backend create
call is made, and the record sent consists of the two required fields, then
`description` exactly when its params value is truthy, then `impact` and
`urgency` always (null when absent); keys of `params` other than these five
are not forwarded. -/
theorem create_forwards_only_named_optional_fields (b : Backend) (fresh : String)
    (fs ps : List (String × Json))
    (hty : dlookup fs "type" = some (Json.str "execute"))
    (htool : dlookup fs "tool_name" = some (Json.str "create_incident"))
    (hp : (dlookup fs "params").getD (Json.obj []) = Json.obj ps)
    (h1 : hasKey ps "short_description" = true) (h2 : hasKey ps "caller_id" = true) :
    (handleParsed b fresh (Json.obj fs)).2 =
      [Call.createT
        ([("short_description", pget ps "short_description"), ("caller_id", pget ps "caller_id")] ++
          (if truthy (pget ps "description") then [("description", pget ps "description")] else []) ++
          [("impact", pget ps "impact"), ("urgency", pget ps "urgency")])] := by
  rw [handleParsed_execute b fresh fs hty, handleExecute_create b _ fs htool, hp,
    mkResponse_snd, wrapCall_snd]
  simp [execCreateIncident, pyIn, h1, h2]
  have hsnd : (ServiceNowClient.create_incident b (pget ps "short_description")
      (pget ps "caller_id") (pget ps "description")
      [("impact", pget ps "impact"), ("urgency", pget ps "urgency")]).2 =
      [Call.createT (ServiceNowClient.incidentData (pget ps "short_description")
        (pget ps "caller_id") (pget ps "description")
        [("impact", pget ps "impact"), ("urgency", pget ps "urgency")])] := rfl
  rw [hsnd, incidentData_eq]
  simp

/-- C1 witness: the amended theorem applied to a concrete `create_incident`
request with a truthy `description` and an `impact`, but no `urgency`. -/
theorem create_forwards_only_named_optional_fields_witness :
    (handleParsed emptyGetBackend "fresh-6" (Json.obj
      [("id", Json.str "m6b"), ("type", Json.str "execute"),
       ("tool_name", Json.str "create_incident"),
       ("params", Json.obj [("short_description", Json.str "x"), ("caller_id", Json.str "y"),
         ("description", Json.str "details"), ("impact", Json.str "2")])])).2 =
      [Call.createT [("short_description", Json.str "x"), ("caller_id", Json.str "y"),
        ("description", Json.str "details"), ("impact", Json.str "2"), ("urgency", Json.null)]] :=
  create_forwards_only_named_optional_fields emptyGetBackend "fresh-6"
    [("id", Json.str "m6b"), ("type", Json.str "execute"),
     ("tool_name", Json.str "create_incident"),
     ("params", Json.obj [("short_description", Json.str "x"), ("caller_id", Json.str "y"),
       ("description", Json.str "details"), ("impact", Json.str "2")])]
    [("short_description", Json.str "x"), ("caller_id", Json.str "y"),
     ("description", Json.str "details"), ("impact", Json.str "2")]
    rfl rfl rfl rfl rfl

/-! Claim C2 (corrected). -/

/-- C2 counterexample: the reply to a malformed-syntax frame is the generic
error envelope of main.py line 295, which carries no `id` field at all —
contradicting the claim that every answering `error` envelope (including
answers to malformed-syntax input) carries the triggering or a freshly
assigned `id`. -/
theorem malformed_reply_carries_no_id :
    (handleFrame emptyGetBackend "fresh-0" Frame.malformed).1 =
      Json.obj [("type", Json.str "error"), ("error", Json.str "Invalid JSON received.")] ∧
    envId (handleFrame emptyGetBackend "fresh-0" Frame.malformed).1 = none :=
  ⟨rfl, rfl⟩

/-- C2 (amended): the reply to every inbound frame that parses as a JSON
object carries an `id` equal to the inbound `id` (or the freshly assigned
identifier when the inbound `id` is absent); the replies to malformed-syntax
input and to frames that parse as a non-object carry no `id` field. -/
theorem reply_id_matches_parsed_inbound (b : Backend) (fresh : String) (f : Frame) :
    envId (handleFrame b fresh f).1 =
      (match f with
       | Frame.parsed (Json.obj fs) => some ((dlookup fs "id").getD (Json.str fresh))
       | _ => none) := by
  cases f with
  | malformed => rfl
  | parsed j =>
    cases j with
    | obj fs =>
      simp only [handleFrame, handleParsed]
      by_cases h1 : truthy (msgType fs) = false
      · rw [if_pos h1]; rfl
      · rw [if_neg h1]
        by_cases h2 : jsonEqStr (msgType fs) "heartbeat" = true
        · rw [if_pos h2]; rfl
        · rw [if_neg h2]
          by_cases h3 : jsonEqStr (msgType fs) "execute" = true
          · rw [if_pos h3]; exact envId_handleExecute b (msgId fresh fs) fs
          · rw [if_neg h3]; rfl
    | null => rfl
    | bool bb => rfl
    | num n => rfl
    | str s => rfl
    | arr es => rfl

/-! Claim C3 (corrected). -/

/-- C3 counterexample: a session whose receive loop ends with an
unrecoverable non-disconnect exception (the `except Exception` arm of
main.py lines 302-303) is NOT deregistered: the registry is unchanged and
the session_id is still registered, contradicting the claim that an
unrecoverable transport error triggers deregistration. -/
theorem error_teardown_leaves_session_registered :
    sessionTeardown [("sess-1", 0)] "sess-1"
        (SessionEnd.otherError "RuntimeError: receive failed") = [("sess-1", 0)] ∧
    ((sessionTeardown [("sess-1", 0)] "sess-1"
        (SessionEnd.otherError "RuntimeError: receive failed")).any
      (fun p => p.1 == "sess-1")) = true :=
  ⟨rfl, rfl⟩

/-- C3 (amended): reaching the Closed state via the transport disconnect
signal (`WebSocketDisconnect`) deregisters the session_id from the registry
(it is no longer registered afterwards); reaching it via any other
unrecoverable error ends the session's loop — so no further messages are
processed — but leaves the registry untouched, the session_id still
registered. -/
theorem teardown_deregisters_only_on_disconnect (conns : List (String × Nat))
    (sid : String) (e : String) :
    ((sessionTeardown conns sid SessionEnd.wsDisconnect).any (fun p => p.1 == sid)) = false ∧
    sessionTeardown conns sid (SessionEnd.otherError e) = conns := by
  constructor
  · cases h : conns.any (fun p => p.1 == sid) with
    | true => simp [sessionTeardown, ConnectionManager.disconnect, h, any_filter_ne]
    | false => simp [sessionTeardown, ConnectionManager.disconnect, h]
  · rfl

/-! Claim C4 (confirmed). -/

/-- C4: for every inbound `heartbeat` envelope with an `id` and a
`timestamp`, the reply is exactly one `heartbeat_ack` envelope carrying the
same `id` and the very `timestamp` value the client sent (the handler
returns one envelope per frame by construction, and makes no backend
call). -/
theorem heartbeat_ack_echoes_id_and_timestamp (b : Backend) (fresh : String)
    (fs : List (String × Json)) (idv ts : Json)
    (hty : dlookup fs "type" = some (Json.str "heartbeat"))
    (hid : dlookup fs "id" = some idv)
    (hts : dlookup fs "timestamp" = some ts) :
    handleParsed b fresh (Json.obj fs) =
      (Json.obj [("id", idv), ("type", Json.str "heartbeat_ack"), ("timestamp", ts)], []) := by
  have hmt : msgType fs = Json.str "heartbeat" := msgType_eq fs _ hty
  have e1 : truthy (Json.str "heartbeat") = true := rfl
  have e2 : jsonEqStr (Json.str "heartbeat") "heartbeat" = true := rfl
  simp [handleParsed, hmt, e1, e2, msgId, hid, hts]

/-- C4 witness: a concrete heartbeat with id `hb-7` and timestamp 1712. -/
theorem heartbeat_ack_echoes_id_and_timestamp_witness :
    handleParsed emptyGetBackend "fresh-1" (Json.obj
      [("id", Json.str "hb-7"), ("type", Json.str "heartbeat"), ("timestamp", Json.num 1712)]) =
      (Json.obj [("id", Json.str "hb-7"), ("type", Json.str "heartbeat_ack"),
        ("timestamp", Json.num 1712)], []) :=
  heartbeat_ack_echoes_id_and_timestamp emptyGetBackend "fresh-1"
    [("id", Json.str "hb-7"), ("type", Json.str "heartbeat"), ("timestamp", Json.num 1712)]
    (Json.str "hb-7") (Json.num 1712) rfl rfl rfl

/-! Claim C5 (confirmed). -/

/-- C5: for every inbound `execute` envelope whose `tool_name` is a string
outside the set containing `get_incident_details` and `create_incident`,
the reply is an `error` envelope whose message is exactly
`Unknown tool: '<tool_name>'`, and no backend call is made (the call trace
is empty). -/
theorem unknown_tool_exact_error_no_backend_call (b : Backend) (fresh : String)
    (fs : List (String × Json)) (s : String)
    (hty : dlookup fs "type" = some (Json.str "execute"))
    (htool : dlookup fs "tool_name" = some (Json.str s))
    (h1 : s ≠ "get_incident_details") (h2 : s ≠ "create_incident") :
    handleParsed b fresh (Json.obj fs) =
      (errEnv (msgId fresh fs) ("Unknown tool: '" ++ s ++ "'"), []) := by
  rw [handleParsed_execute b fresh fs hty, handleExecute, htool]
  have hb1 : (s == "get_incident_details") = false := by simp [h1]
  have hb2 : (s == "create_incident") = false := by simp [h2]
  simp [Option.getD, executeOutcome, jsonEqStr, hb1, hb2, pyStr, mkResponse]

/-- C5 witness: an `execute` naming the unregistered tool
`delete_incident`. -/
theorem unknown_tool_exact_error_no_backend_call_witness :
    handleParsed emptyGetBackend "fresh-2" (Json.obj
      [("id", Json.str "m2"), ("type", Json.str "execute"),
       ("tool_name", Json.str "delete_incident")]) =
      (errEnv (Json.str "m2") "Unknown tool: 'delete_incident'", []) :=
  unknown_tool_exact_error_no_backend_call emptyGetBackend "fresh-2"
    [("id", Json.str "m2"), ("type", Json.str "execute"),
     ("tool_name", Json.str "delete_incident")]
    "delete_incident" rfl rfl (by decide) (by decide)

/-! Claim C6 (corrected). -/

/-- C6 counterexample: `incident_number` IS present in `params` (second
conjunct) but with the empty string as value, and the backend finds nothing
for every query (`emptyGetBackend`); the reply is an `error` envelope, not
the `tool_result` with empty `result` the claim promises, because the
dispatcher tests truthiness (`tool_params.get(...)`), not presence. -/
theorem get_incident_empty_identifier_yields_error :
    (handleFrame emptyGetBackend "fresh-8" (Frame.parsed (Json.obj
      [("id", Json.str "m4"), ("type", Json.str "execute"),
       ("tool_name", Json.str "get_incident_details"),
       ("params", Json.obj [("incident_number", Json.str "")])]))).1 =
      errEnv (Json.str "m4")
        "Error executing tool 'get_incident_details': Either 'incident_number' or 'sys_id' must be provided for get_incident_details." ∧
    hasKey [("incident_number", Json.str "")] "incident_number" = true :=
  ⟨rfl, rfl⟩

/-- C6 (amended): for every `execute` of `get_incident_details` in which at
least one of `incident_number` or `sys_id` is present in `params` with a
truthy value (for a string: non-empty), against a backend that finds no
matching record (every GET returns an empty `result` list), the reply is a
`tool_result` envelope whose `result` is the empty mapping — "not found" is
not converted into an `error` envelope. -/
theorem get_incident_not_found_yields_empty_result (b : Backend) (fresh : String)
    (fs ps : List (String × Json))
    (hty : dlookup fs "type" = some (Json.str "execute"))
    (htool : dlookup fs "tool_name" = some (Json.str "get_incident_details"))
    (hp : (dlookup fs "params").getD (Json.obj []) = Json.obj ps)
    (hpresent : truthy (pget ps "incident_number") = true ∨ truthy (pget ps "sys_id") = true)
    (hempty : ∀ q, b.getTable q = Except.ok (Json.obj [("result", Json.arr [])])) :
    (handleParsed b fresh (Json.obj fs)).1 =
      Json.obj [("id", msgId fresh fs), ("type", Json.str "tool_result"),
        ("tool_name", Json.str "get_incident_details"), ("result", Json.obj [])] := by
  rw [handleParsed_execute b fresh fs hty, handleExecute_get b _ fs htool, hp]
  have hex : ServiceNowClient.extractResult (Json.obj [("result", Json.arr [])]) =
      Except.ok (Json.obj []) := rfl
  rcases hpresent with h | h <;>
    simp [execGetIncident, h, ServiceNowClient.get_incident, hempty, hex, wrapCall, mkResponse]

/-- C6 witness: a concrete lookup of `INC0010007` against the empty
backend answers `tool_result` with an empty `result`. -/
theorem get_incident_not_found_yields_empty_result_witness :
    (handleParsed emptyGetBackend "fresh-3" (Json.obj
      [("id", Json.str "m5"), ("type", Json.str "execute"),
       ("tool_name", Json.str "get_incident_details"),
       ("params", Json.obj [("incident_number", Json.str "INC0010007")])])).1 =
      Json.obj [("id", Json.str "m5"), ("type", Json.str "tool_result"),
        ("tool_name", Json.str "get_incident_details"), ("result", Json.obj [])] :=
  get_incident_not_found_yields_empty_result emptyGetBackend "fresh-3"
    [("id", Json.str "m5"), ("type", Json.str "execute"),
     ("tool_name", Json.str "get_incident_details"),
     ("params", Json.obj [("incident_number", Json.str "INC0010007")])]
    [("incident_number", Json.str "INC0010007")]
    rfl rfl rfl (Or.inl rfl) (fun _ => rfl)

/-! Claim C7 (corrected). -/

/-- C7 counterexample: `sys_id` IS present in `params` (second conjunct)
but with the empty string as value; no backend call is made (empty call
trace), contradicting the claim that presence of one identifier leads to a
backend get call — the dispatcher tests truthiness, not presence. -/
theorem get_incident_present_falsy_sys_id_no_backend_call :
    (handleFrame emptyGetBackend "fresh-9" (Frame.parsed (Json.obj
      [("id", Json.str "m4b"), ("type", Json.str "execute"),
       ("tool_name", Json.str "get_incident_details"),
       ("params", Json.obj [("sys_id", Json.str "")])]))).2 = ([] : List Call) ∧
    hasKey [("sys_id", Json.str "")] "sys_id" = true :=
  ⟨rfl, rfl⟩

/-- C7 (amended): for every `execute` of `get_incident_details`, when at
least one of `incident_number` or `sys_id` is present in `params` with a
truthy value the backend get is called exactly once (with the query built
from the truthy identifiers); when both are absent or falsy the reply is
the `error` envelope of the dispatcher's ValueError and the backend is
never called. -/
theorem get_incident_backend_call_requires_truthy_identifier (b : Backend)
    (fresh : String) (fs ps : List (String × Json))
    (hty : dlookup fs "type" = some (Json.str "execute"))
    (htool : dlookup fs "tool_name" = some (Json.str "get_incident_details"))
    (hp : (dlookup fs "params").getD (Json.obj []) = Json.obj ps) :
    (truthy (pget ps "incident_number") = true ∨ truthy (pget ps "sys_id") = true →
      (handleParsed b fresh (Json.obj fs)).2 =
        [Call.getT (ServiceNowClient.queryParams (pget ps "incident_number")
          (pget ps "sys_id"))]) ∧
    (truthy (pget ps "incident_number") = false → truthy (pget ps "sys_id") = false →
      handleParsed b fresh (Json.obj fs) =
        (errEnv (msgId fresh fs)
          "Error executing tool 'get_incident_details': Either 'incident_number' or 'sys_id' must be provided for get_incident_details.", [])) := by
  rw [handleParsed_execute b fresh fs hty, handleExecute_get b _ fs htool, hp]
  constructor
  · intro h
    rw [mkResponse_snd, wrapCall_snd]
    rcases h with h | h <;>
      simp [execGetIncident, h, ServiceNowClient.get_incident]
  · intro h1 h2
    have hmsg : "Error executing tool 'get_incident_details': " ++
        "Either 'incident_number' or 'sys_id' must be provided for get_incident_details." =
        "Error executing tool 'get_incident_details': Either 'incident_number' or 'sys_id' must be provided for get_incident_details." := rfl
    simp [execGetIncident, h1, h2, wrapCall, mkResponse, hmsg]

/-- C7 witness: a truthy `sys_id` leads to exactly one backend GET whose
query carries that `sys_id`. -/
theorem get_incident_backend_call_requires_truthy_identifier_witness :
    (handleParsed oneIncidentBackend "fresh-4" (Json.obj
      [("id", Json.str "m5b"), ("type", Json.str "execute"),
       ("tool_name", Json.str "get_incident_details"),
       ("params", Json.obj [("sys_id", Json.str "62826bf03710200044e0bfc129e415f2")])])).2 =
      [Call.getT [("sys_id", Json.str "62826bf03710200044e0bfc129e415f2")]] :=
  (get_incident_backend_call_requires_truthy_identifier oneIncidentBackend "fresh-4"
    [("id", Json.str "m5b"), ("type", Json.str "execute"),
     ("tool_name", Json.str "get_incident_details"),
     ("params", Json.obj [("sys_id", Json.str "62826bf03710200044e0bfc129e415f2")])]
    [("sys_id", Json.str "62826bf03710200044e0bfc129e415f2")]
    rfl rfl rfl).1 (Or.inr rfl)

/-! Claim C8 (confirmed). -/

/-- C8: for every `execute` of `create_incident` whose `params` mapping is
missing `short_description` or `caller_id` (or both), the reply is an
`error` envelope whose message lists both required field names —
`Missing required parameters for create_incident: short_description,
caller_id`, wrapped by the dispatcher's catch as `Error executing tool
'create_incident': ...` — regardless of which key is missing, and the
backend is never called (empty call trace). -/
theorem create_missing_required_error_lists_both (b : Backend) (fresh : String)
    (fs ps : List (String × Json))
    (hty : dlookup fs "type" = some (Json.str "execute"))
    (htool : dlookup fs "tool_name" = some (Json.str "create_incident"))
    (hp : (dlookup fs "params").getD (Json.obj []) = Json.obj ps)
    (hmiss : hasKey ps "short_description" = false ∨ hasKey ps "caller_id" = false) :
    handleParsed b fresh (Json.obj fs) =
      (errEnv (msgId fresh fs)
        "Error executing tool 'create_incident': Missing required parameters for create_incident: short_description, caller_id", []) := by
  rw [handleParsed_execute b fresh fs hty, handleExecute_create b _ fs htool, hp]
  have hmsg : "Error executing tool 'create_incident': " ++ missingCreateMsg =
      "Error executing tool 'create_incident': Missing required parameters for create_incident: short_description, caller_id" := rfl
  cases hsd : hasKey ps "short_description" with
  | false => simp [execCreateIncident, pyIn, hsd, wrapCall, mkResponse, hmsg]
  | true =>
      have hci : hasKey ps "caller_id" = false := by
        rcases hmiss with h | h
        · rw [h] at hsd; exact absurd hsd (by simp)
        · exact h
      simp [execCreateIncident, pyIn, hsd, hci, wrapCall, mkResponse, hmsg]

/-- C8 witness: `params` supplying only `short_description` (Scenario C of
the spec) answers the error listing both required names, with no backend
call. -/
theorem create_missing_required_error_lists_both_witness :
    handleParsed emptyGetBackend "fresh-5" (Json.obj
      [("id", Json.str "m7"), ("type", Json.str "execute"),
       ("tool_name", Json.str "create_incident"),
       ("params", Json.obj [("short_description", Json.str "x")])]) =
      (errEnv (Json.str "m7")
        "Error executing tool 'create_incident': Missing required parameters for create_incident: short_description, caller_id", []) :=
  create_missing_required_error_lists_both emptyGetBackend "fresh-5"
    [("id", Json.str "m7"), ("type", Json.str "execute"),
     ("tool_name", Json.str "create_incident"),
     ("params", Json.obj [("short_description", Json.str "x")])]
    [("short_description", Json.str "x")]
    rfl rfl rfl (Or.inr rfl)

/-! Claim C9 (confirmed). -/

/-- C9: for every `execute` envelope carrying no `tool_name` field at all,
`mcp_message.get("tool_name")` yields `None`, which falls through to the
unknown-tool branch rendered with Python's `str`: the reply is an `error`
envelope whose message is exactly `Unknown tool: 'None'`, with no backend
call — not a missing-parameter or missing-field error. -/
theorem execute_missing_tool_name_yields_unknown_none (b : Backend) (fresh : String)
    (fs : List (String × Json))
    (hty : dlookup fs "type" = some (Json.str "execute"))
    (htool : dlookup fs "tool_name" = none) :
    handleParsed b fresh (Json.obj fs) =
      (errEnv (msgId fresh fs) "Unknown tool: 'None'", []) := by
  rw [handleParsed_execute b fresh fs hty, handleExecute, htool]
  simp [Option.getD, executeOutcome, jsonEqStr, pyStr, mkResponse]

/-- C9 witness: an `execute` envelope with only an `id` and `type`. -/
theorem execute_missing_tool_name_yields_unknown_none_witness :
    handleParsed emptyGetBackend "fresh-10" (Json.obj
      [("id", Json.str "m3"), ("type", Json.str "execute")]) =
      (errEnv (Json.str "m3") "Unknown tool: 'None'", []) :=
  execute_missing_tool_name_yields_unknown_none emptyGetBackend "fresh-10"
    [("id", Json.str "m3"), ("type", Json.str "execute")] rfl rfl

/-! Claim C10 (confirmed). -/

/-- C10: for every `create_incident` dispatch with both required keys
present in `params`, the record sent to the backend create call always
contains the keys `impact` and `urgency` — each carrying the params value,
which defaults to null when the key is absent — while a `description`
absent from `params` is omitted from the record entirely. -/
theorem create_payload_impact_urgency_always_description_omitted (b : Backend)
    (fresh : String) (fs ps : List (String × Json))
    (hty : dlookup fs "type" = some (Json.str "execute"))
    (htool : dlookup fs "tool_name" = some (Json.str "create_incident"))
    (hp : (dlookup fs "params").getD (Json.obj []) = Json.obj ps)
    (h1 : hasKey ps "short_description" = true) (h2 : hasKey ps "caller_id" = true) :
    ∃ d, (handleParsed b fresh (Json.obj fs)).2 = [Call.createT d] ∧
      dlookup d "impact" = some ((dlookup ps "impact").getD Json.null) ∧
      dlookup d "urgency" = some ((dlookup ps "urgency").getD Json.null) ∧
      (dlookup ps "description" = none → dlookup d "description" = none) := by
  refine ⟨ServiceNowClient.incidentData (pget ps "short_description") (pget ps "caller_id")
    (pget ps "description") [("impact", pget ps "impact"), ("urgency", pget ps "urgency")],
    ?_, ?_, ?_, ?_⟩
  · rw [handleParsed_execute b fresh fs hty, handleExecute_create b _ fs htool, hp,
      mkResponse_snd, wrapCall_snd]
    simp [execCreateIncident, pyIn, h1, h2]
    rfl
  · rw [incidentData_eq]
    cases htr : truthy (pget ps "description") <;> simp [htr] <;> rfl
  · rw [incidentData_eq]
    cases htr : truthy (pget ps "description") <;> simp [htr] <;> rfl
  · intro hd
    have hdesc : pget ps "description" = Json.null := by rw [pget, hd]; rfl
    rw [incidentData_eq, hdesc]
    rfl

/-- C10 witness: a `create_incident` with only the two required fields —
the record gains `impact` and `urgency` mapped to null and no
`description` key. -/
theorem create_payload_impact_urgency_always_description_omitted_witness :
    ∃ d, (handleParsed emptyGetBackend "fresh-11" (Json.obj
      [("id", Json.str "m6"), ("type", Json.str "execute"),
       ("tool_name", Json.str "create_incident"),
       ("params", Json.obj [("short_description", Json.str "VPN down"),
         ("caller_id", Json.str "abel.tuter")])])).2 = [Call.createT d] ∧
      dlookup d "impact" = some Json.null ∧
      dlookup d "urgency" = some Json.null ∧
      (dlookup [("short_description", Json.str "VPN down"),
          ("caller_id", Json.str "abel.tuter")] "description" = none →
        dlookup d "description" = none) :=
  create_payload_impact_urgency_always_description_omitted emptyGetBackend "fresh-11"
    [("id", Json.str "m6"), ("type", Json.str "execute"),
     ("tool_name", Json.str "create_incident"),
     ("params", Json.obj [("short_description", Json.str "VPN down"),
       ("caller_id", Json.str "abel.tuter")])]
    [("short_description", Json.str "VPN down"), ("caller_id", Json.str "abel.tuter")]
    rfl rfl rfl rfl rfl
